import Mathlib

/-!
# window-post-snark-server — slot state machine, shallow embedding

Shallow embedding of the task-lifecycle controller of the
`window-post-snark-server` repository (`src/src/server.rs`,
`src/src/tasks.rs`, `src/src/error.rs`).

Modelling choices:
* `Instant` is a natural number read off a monotone clock; each operation
  takes the entry time `now : Nat` as an explicit argument.
  `Instant::duration_since` is truncated subtraction on `Nat` (it saturates
  at zero, like the Rust API when the argument is later).
* `Duration` values are naturals in the same unit as the clock.
* Byte vectors (`Vec<u8>`) are `List Nat`.
* `tonic::Status` is a code/message pair; only the constructors the server
  uses (`cancelled`, `invalid_argument`, `aborted`) are modelled.
* The executor signal channel (`UnboundedSender<String>`) is modelled by a
  boolean `txOpen`: `send` succeeds iff the receiver is still alive; on
  failure `SendError.0` carries back the sent value, the string `"ok"`.
* Mutex poisoning is not modelled: every lock acquisition succeeds, so the
  `Status::aborted` arms guarding `.lock()` are unreachable here and each
  state-machine operation returns its `Result` together with the state it
  leaves behind.
-/

namespace WPS

/-- Modelled from the spec: `ServerStatus` lives in `src/status.rs`, which is
absent from `src/`; §3 of the spec lists the four variants. -/
inductive ServerStatus : Type
  | Free
  | Locked
  | Working
  | Unknown
deriving DecidableEq, Repr

/-- Modelled from the spec: §3 says the default `ServerStatus` is `Free`. -/
def ServerStatus.default : ServerStatus := ServerStatus.Free

/-- Modelled from the spec: `TaskStatus` lives in the absent `src/status.rs`;
§3 of the spec lists the five variants. -/
inductive TaskStatus : Type
  | Ready
  | Working
  | Done
  | Failed
  | Returned
deriving DecidableEq, Repr

/-- Modelled from the spec: §3 says the default `TaskStatus` is `Ready`. -/
def TaskStatus.default : TaskStatus := TaskStatus.Ready

/-- Modelled from the spec: the `Display` strings of `ServerStatus` are the
`msg` values of §6, `"Free" | "Locked" | "Working" | "Unknown"`. -/
def ServerStatus.toString : ServerStatus → String
  | ServerStatus.Free => "Free"
  | ServerStatus.Locked => "Locked"
  | ServerStatus.Working => "Working"
  | ServerStatus.Unknown => "Unknown"

/-- Modelled from the spec: the `Display` string of each `TaskStatus` variant
is its name; §6 and §8 use `TaskStatus::Working.to_string() = "Working"`. -/
def TaskStatus.toString : TaskStatus → String
  | TaskStatus.Ready => "Ready"
  | TaskStatus.Working => "Working"
  | TaskStatus.Done => "Done"
  | TaskStatus.Failed => "Failed"
  | TaskStatus.Returned => "Returned"

/-- Status codes of `tonic::Status` used by `server.rs`. -/
inductive StatusCode : Type
  | Cancelled
  | InvalidArgument
  | Aborted
deriving DecidableEq, Repr

/-- `tonic::Status`: a code together with a message. -/
structure Status : Type where
  code : StatusCode
  message : String
deriving DecidableEq, Repr

def Status.cancelled (m : String) : Status := ⟨StatusCode.Cancelled, m⟩

def Status.invalid_argument (m : String) : Status := ⟨StatusCode.InvalidArgument, m⟩

def Status.aborted (m : String) : Status := ⟨StatusCode.Aborted, m⟩

/-- `thiserror` display of `error::Error::InvalidParameters` (src/src/error.rs). -/
def invalidParametersMsg (s : String) : String := "Invalid parameters file: " ++ s

/-- `thiserror` display of `error::Error::NoTaskRunningOnSever` (src/src/error.rs). -/
def noTaskRunningMsg : String := "no task running on this server"

/-- `thiserror` display of `error::Error::TaskFailedWithError` (src/src/error.rs). -/
def taskFailedMsg (s : String) : String := "task failed with error: " ++ s

/-- `TaskInfo` (src/src/tasks.rs lines 16-25). -/
structure TaskInfo : Type where
  task_id : String
  vanilla_proof : List Nat
  pub_in : List Nat
  post_config : List Nat
  replicas_len : Nat
  result : List Nat
  task_status : TaskStatus
deriving DecidableEq, Repr

/-- `TaskInfo::default()`: `#[derive(Default)]` zeroes every field; the
`task_status` default is the spec-modelled `TaskStatus.default`. -/
def TaskInfo.default : TaskInfo :=
  { task_id := ""
    vanilla_proof := []
    pub_in := []
    post_config := []
    replicas_len := 0
    result := []
    task_status := TaskStatus.default }

/-- `ServerInfo` (src/src/server.rs lines 32-41). -/
structure ServerInfo : Type where
  task_info : TaskInfo
  status : ServerStatus
  last_update_time : Nat
  server_lock_time_out : Nat
  server_task_get_back_time_out : Nat
  server_exit_time_out_after_task_done : Nat
  error : String
deriving DecidableEq, Repr

/-- `Instant::now().duration_since(last)`, saturating at zero. -/
def durationSince (now last : Nat) : Nat := now - last

/-- `SnarkTaskRequestParams` message fields used by the server. -/
structure SnarkTaskRequestParams : Type where
  task_id : String
  vanilla_proof : List Nat
  pub_in : List Nat
  post_config : List Nat
  replicas_len : Nat
deriving DecidableEq, Repr

/-- `set_task_info` (src/src/tasks.rs lines 38-49). -/
def set_task_info (snark_params : SnarkTaskRequestParams) : TaskInfo :=
  { task_id := snark_params.task_id
    vanilla_proof := snark_params.vanilla_proof
    pub_in := snark_params.pub_in
    post_config := snark_params.post_config
    replicas_len := snark_params.replicas_len
    result := []
    task_status := TaskStatus.Ready }

/-- `WindowPostSnarkServer::lock_server_if_free` (src/src/server.rs lines
157-203). `now` is the entry time; the result is the Rust return value
paired with the state left under the mutex. -/
def lock_server_if_free (si : ServerInfo) (now : Nat) (task_id : String) :
    Except Status ServerStatus × ServerInfo :=
  match si.status with
  | ServerStatus.Free =>
      (Except.ok ServerStatus.Free,
       { si with
          task_info := { TaskInfo.default with task_id := task_id }
          status := ServerStatus.Locked
          last_update_time := now })
  | ServerStatus.Locked =>
      if durationSince now si.last_update_time > si.server_lock_time_out then
        (Except.ok ServerStatus.Free,
         { si with
            task_info := { TaskInfo.default with task_id := task_id }
            status := ServerStatus.Locked
            last_update_time := now })
      else
        (Except.ok ServerStatus.Locked, si)
  | ServerStatus.Working =>
      if (si.task_info.task_status = TaskStatus.Done ∧
            durationSince now si.last_update_time ≥ si.server_task_get_back_time_out) ∨
         (si.task_info.task_status = TaskStatus.Failed ∧
            durationSince now si.last_update_time ≥ si.server_task_get_back_time_out) then
        (Except.ok ServerStatus.Free,
         { si with
            task_info := { TaskInfo.default with task_id := task_id }
            status := ServerStatus.Locked
            last_update_time := now })
      else
        (Except.ok ServerStatus.Working, si)
  | ServerStatus.Unknown => (Except.ok ServerStatus.Unknown, si)

/-- `WindowPostSnarkServer::do_task` (src/src/server.rs lines 119-155).
`txOpen` models whether the executor signal channel still has a receiver;
on a closed channel `SendError.0` is the sent string `"ok"`. -/
def do_task (si : ServerInfo) (now : Nat) (txOpen : Bool)
    (task_params : SnarkTaskRequestParams) : Except Status Unit × ServerInfo :=
  let task_id := task_params.task_id
  if si.status = ServerStatus.Locked ∧ si.task_info.task_id = task_id then
    let si' : ServerInfo :=
      { si with
          task_info := set_task_info task_params
          status := ServerStatus.Working
          last_update_time := now }
    if txOpen then
      (Except.ok (), si')
    else
      (Except.error (Status.cancelled "ok"), si')
  else
    match si.status with
    | ServerStatus.Locked =>
        (Except.error
          (Status.cancelled "server was locked by another task, can not be used now"), si)
    | ServerStatus.Free =>
        (Except.error
          (Status.cancelled "server should be locked until task is executed"), si)
    | ServerStatus.Working =>
        (Except.error
          (Status.cancelled "server is working on another task, can not be used now"), si)
    | ServerStatus.Unknown =>
        (Except.error (Status.cancelled "server is Unknown, can not be used now"), si)

/-- `WindowPostSnarkServer::get_task_result` (src/src/server.rs lines 205-244). -/
def get_task_result (si : ServerInfo) (now : Nat) (task_id : String) :
    Except Status (List Nat) × ServerInfo :=
  if si.status = ServerStatus.Working then
    if task_id ≠ si.task_info.task_id then
      (Except.error
        (Status.invalid_argument
          (invalidParametersMsg
            ("current working task id is:" ++ si.task_info.task_id ++ ",but:" ++ task_id))),
       si)
    else if si.task_info.task_status = TaskStatus.Done then
      (Except.ok si.task_info.result,
       { si with
          status := ServerStatus.Free
          last_update_time := now
          task_info := { si.task_info with task_status := TaskStatus.Returned } })
    else if si.task_info.task_status = TaskStatus.Failed then
      (Except.error (Status.aborted (taskFailedMsg si.error)),
       { si with
          status := ServerStatus.Free
          last_update_time := now })
    else
      (Except.ok [], si)
  else
    (Except.error (Status.cancelled noTaskRunningMsg), si)

/-- `WindowPostSnarkServer::unlock` (src/src/server.rs lines 246-274). -/
def unlock (si : ServerInfo) (now : Nat) (task_id : String) :
    Except Status Unit × ServerInfo :=
  if si.status = ServerStatus.Free then
    (Except.error (Status.cancelled "server is already Free"), si)
  else if si.status = ServerStatus.Locked then
    if task_id = si.task_info.task_id then
      (Except.ok (),
       { si with
          status := ServerStatus.default
          task_info := TaskInfo.default
          last_update_time := now })
    else
      (Except.error
        (Status.invalid_argument
          ("can not be unlocked by another task ,which is locked by task_id:" ++
            si.task_info.task_id ++ ",but " ++ task_id)),
       si)
  else
    (Except.error
      (Status.cancelled "this operation just used to unlock a server in status Locked"), si)

/-- `GetTaskResultResponse` message. -/
structure GetTaskResultResponse : Type where
  msg : String
  result : List Nat
deriving DecidableEq, Repr

/-- RPC facade `get_snark_task_result` (src/src/server.rs lines 305-325). -/
def get_snark_task_result (si : ServerInfo) (now : Nat) (task_id : String) :
    Except Status GetTaskResultResponse × ServerInfo :=
  match get_task_result si now task_id with
  | (Except.ok v, si') =>
      if v.length > 0 then
        (Except.ok { msg := "ok", result := v }, si')
      else
        (Except.ok { msg := TaskStatus.toString TaskStatus.Working, result := v }, si')
  | (Except.error e, si') => (Except.error e, si')

/-- Clause 2 of the spec's invariant list: `status = Free` implies `task_info`
is zeroed. -/
def inv2 (si : ServerInfo) : Prop :=
  si.status = ServerStatus.Free → si.task_info = TaskInfo.default

instance (si : ServerInfo) : Decidable (inv2 si) := by
  unfold inv2; infer_instance

/-- Does `needle` occur at the head of `hay`? -/
def startsWithL : List Char → List Char → Bool
  | [], _ => true
  | _ :: _, [] => false
  | a :: as, b :: bs => a == b && startsWithL as bs

/-- Does `needle` occur contiguously anywhere in `hay`? -/
def containsL (needle : List Char) : List Char → Bool
  | [] => startsWithL needle []
  | b :: bs => startsWithL needle (b :: bs) || containsL needle bs

/-- Substring containment on strings (case-sensitive). -/
def strContains (hay needle : String) : Bool := containsL needle.data hay.data

/-- Sequentialised run of `lock_server_if_free` calls: the mutex totally
orders the concurrent callers, so an interleaving is a list of
(task_id, entry time) pairs applied in mutex-acquisition order. Returns the
statuses each caller observes and the final state. -/
def runLocks : ServerInfo → List (String × Nat) →
    List (Except Status ServerStatus) × ServerInfo
  | si, [] => ([], si)
  | si, c :: rest =>
      let r := lock_server_if_free si c.2 c.1
      let l := runLocks r.2 rest
      (r.1 :: l.1, l.2)

/-- Sample state: a freshly started server (slot Free, everything zeroed,
default timeouts 10 / 60 / 300 seconds). -/
def siFree : ServerInfo :=
  { task_info := TaskInfo.default
    status := ServerStatus.Free
    last_update_time := 0
    server_lock_time_out := 10
    server_task_get_back_time_out := 60
    server_exit_time_out_after_task_done := 300
    error := "" }

/-- Sample state: slot Working on task `"A"`, result `[1]` ready (Done). -/
def siDoneA : ServerInfo :=
  { task_info :=
      { task_id := "A"
        vanilla_proof := [1, 2, 3]
        pub_in := [4]
        post_config := [5]
        replicas_len := 1
        result := [1]
        task_status := TaskStatus.Done }
    status := ServerStatus.Working
    last_update_time := 0
    server_lock_time_out := 10
    server_task_get_back_time_out := 60
    server_exit_time_out_after_task_done := 300
    error := "" }

/-- Sample state: slot Working on task `"X"`, task Failed with error
`"gpu oom"`. -/
def siFailedX : ServerInfo :=
  { task_info :=
      { task_id := "X"
        vanilla_proof := [1]
        pub_in := []
        post_config := []
        replicas_len := 1
        result := []
        task_status := TaskStatus.Failed }
    status := ServerStatus.Working
    last_update_time := 0
    server_lock_time_out := 10
    server_task_get_back_time_out := 60
    server_exit_time_out_after_task_done := 300
    error := "gpu oom" }

/-- Sample state: slot Locked by task `"A"`. -/
def siLockedA : ServerInfo :=
  { task_info := { TaskInfo.default with task_id := "A" }
    status := ServerStatus.Locked
    last_update_time := 0
    server_lock_time_out := 10
    server_task_get_back_time_out := 60
    server_exit_time_out_after_task_done := 300
    error := "" }

/-- Sample request: task `"A"` with the §8 S1 blobs. -/
def paramsA : SnarkTaskRequestParams :=
  { task_id := "A"
    vanilla_proof := [1, 2, 3]
    pub_in := [4]
    post_config := [5]
    replicas_len := 1 }

lemma startsWithL_refl (l : List Char) : startsWithL l l = true := by
  induction l with
  | nil => rfl
  | cons a as ih => simp [startsWithL, ih]

lemma startsWithL_append (n h t : List Char) (hs : startsWithL n h = true) :
    startsWithL n (h ++ t) = true := by
  induction n generalizing h with
  | nil => rfl
  | cons x xs ih =>
      cases h with
      | nil => simp [startsWithL] at hs
      | cons y ys =>
          simp only [startsWithL, Bool.and_eq_true] at hs
          simp only [List.cons_append, startsWithL, Bool.and_eq_true]
          exact ⟨hs.1, ih ys hs.2⟩

lemma containsL_append_right (n a b : List Char) (hc : containsL n a = true) :
    containsL n (a ++ b) = true := by
  induction a with
  | nil =>
      simp only [containsL] at hc
      cases n with
      | nil =>
          cases b with
          | nil => rfl
          | cons y ys => simp [containsL, startsWithL]
      | cons x xs => simp [startsWithL] at hc
  | cons c cs ih =>
      simp only [containsL, Bool.or_eq_true] at hc
      simp only [List.cons_append, containsL, Bool.or_eq_true]
      rcases hc with hc | hc
      · exact Or.inl (startsWithL_append _ _ _ hc)
      · exact Or.inr (ih hc)

lemma containsL_suffix (a b : List Char) : containsL b (a ++ b) = true := by
  induction a with
  | nil =>
      cases b with
      | nil => rfl
      | cons y ys => simp [containsL, startsWithL_refl]
  | cons c cs ih => simp [containsL, ih]

lemma string_data_append (a b : String) : (a ++ b).data = a.data ++ b.data := by
  cases a; cases b; rfl

/-- Containment is stable under extending the haystack on the right. -/
lemma strContains_append_right (a b n : String) (hc : strContains a n = true) :
    strContains (a ++ b) n = true := by
  unfold strContains at *
  rw [string_data_append]
  exact containsL_append_right _ _ _ hc

/-- A string contains its own suffix. -/
lemma strContains_suffix (a b : String) : strContains (a ++ b) b = true := by
  unfold strContains
  rw [string_data_append]
  exact containsL_suffix _ _

/-- Helper: the Done-pickup branch of `get_task_result` in closed form. -/
lemma get_result_done_eq (si : ServerInfo) (now : Nat) (task_id : String)
    (hs : si.status = ServerStatus.Working) (hid : task_id = si.task_info.task_id)
    (hd : si.task_info.task_status = TaskStatus.Done) :
    get_task_result si now task_id =
      (Except.ok si.task_info.result,
       { si with
          status := ServerStatus.Free
          last_update_time := now
          task_info := { si.task_info with task_status := TaskStatus.Returned } }) := by
  simp [get_task_result, hs, hid, hd]

/-- Helper: the Failed-pickup branch of `get_task_result` in closed form. -/
lemma get_result_failed_eq (si : ServerInfo) (now : Nat) (task_id : String)
    (hs : si.status = ServerStatus.Working) (hid : task_id = si.task_info.task_id)
    (hf : si.task_info.task_status = TaskStatus.Failed) :
    get_task_result si now task_id =
      (Except.error (Status.aborted (taskFailedMsg si.error)),
       { si with
          status := ServerStatus.Free
          last_update_time := now }) := by
  have hd : si.task_info.task_status ≠ TaskStatus.Done := by
    rw [hf]; intro hc; cases hc
  simp [get_task_result, hs, hid, hd, hf]

/-- C2: `lock_server_if_free` follows the spec's decision table, evaluated
against the entry time `now`: Free is taken with the slot zeroed except the
caller's task_id; a Locked slot is stolen iff strictly more than
`server_lock_time_out` has passed; a Working slot is reclaimed iff the task
is Done or Failed and at least `server_task_get_back_time_out` has passed;
Unknown is returned unchanged. -/
theorem C2_lock_decision_table (si : ServerInfo) (now : Nat) (task_id : String) :
    (si.status = ServerStatus.Free →
      lock_server_if_free si now task_id =
        (Except.ok ServerStatus.Free,
         { si with
            task_info := { TaskInfo.default with task_id := task_id }
            status := ServerStatus.Locked
            last_update_time := now })) ∧
    (si.status = ServerStatus.Locked →
      durationSince now si.last_update_time > si.server_lock_time_out →
      lock_server_if_free si now task_id =
        (Except.ok ServerStatus.Free,
         { si with
            task_info := { TaskInfo.default with task_id := task_id }
            status := ServerStatus.Locked
            last_update_time := now })) ∧
    (si.status = ServerStatus.Locked →
      ¬ durationSince now si.last_update_time > si.server_lock_time_out →
      lock_server_if_free si now task_id = (Except.ok ServerStatus.Locked, si)) ∧
    (si.status = ServerStatus.Working →
      (si.task_info.task_status = TaskStatus.Done ∨
        si.task_info.task_status = TaskStatus.Failed) →
      durationSince now si.last_update_time ≥ si.server_task_get_back_time_out →
      lock_server_if_free si now task_id =
        (Except.ok ServerStatus.Free,
         { si with
            task_info := { TaskInfo.default with task_id := task_id }
            status := ServerStatus.Locked
            last_update_time := now })) ∧
    (si.status = ServerStatus.Working →
      ¬ ((si.task_info.task_status = TaskStatus.Done ∨
            si.task_info.task_status = TaskStatus.Failed) ∧
          durationSince now si.last_update_time ≥ si.server_task_get_back_time_out) →
      lock_server_if_free si now task_id = (Except.ok ServerStatus.Working, si)) ∧
    (si.status = ServerStatus.Unknown →
      lock_server_if_free si now task_id = (Except.ok ServerStatus.Unknown, si)) := by
  refine ⟨?_, ?_, ?_, ?_, ?_, ?_⟩
  · intro h
    simp [lock_server_if_free, h]
  · intro h ht
    simp [lock_server_if_free, h, ht]
  · intro h ht
    simp [lock_server_if_free, h, ht]
  · intro h hd ht
    have hcond :
        (si.task_info.task_status = TaskStatus.Done ∧
            durationSince now si.last_update_time ≥ si.server_task_get_back_time_out) ∨
          (si.task_info.task_status = TaskStatus.Failed ∧
            durationSince now si.last_update_time ≥ si.server_task_get_back_time_out) := by
      rcases hd with hd | hd
      · exact Or.inl ⟨hd, ht⟩
      · exact Or.inr ⟨hd, ht⟩
    simp only [lock_server_if_free, h]
    rw [if_pos hcond]
  · intro h hn
    have hcond :
        ¬ ((si.task_info.task_status = TaskStatus.Done ∧
              durationSince now si.last_update_time ≥ si.server_task_get_back_time_out) ∨
            (si.task_info.task_status = TaskStatus.Failed ∧
              durationSince now si.last_update_time ≥ si.server_task_get_back_time_out)) := by
      intro hc
      apply hn
      rcases hc with ⟨hd, ht⟩ | ⟨hd, ht⟩
      · exact ⟨Or.inl hd, ht⟩
      · exact ⟨Or.inr hd, ht⟩
    simp only [lock_server_if_free, h]
    rw [if_neg hcond]
  · intro h
    simp [lock_server_if_free, h]

/-- C2 witness: on the fresh Free server, locking with task `"A"` at time 5
acquires the slot. -/
theorem C2_lock_decision_table_witness :
    lock_server_if_free siFree 5 "A" =
      (Except.ok ServerStatus.Free,
       { siFree with
          task_info := { TaskInfo.default with task_id := "A" }
          status := ServerStatus.Locked
          last_update_time := 5 }) :=
  (C2_lock_decision_table siFree 5 "A").1 rfl

/-- C3: `get_task_result` follows the spec's case analysis: not Working fails
with the no-task-running message; a mismatched id fails with an
invalid-argument error quoting both ids; Done frees the slot, marks the task
Returned, stamps `last_update_time`, and returns the stored result bytes;
Failed frees the slot and returns the stored error; any other task status
returns empty bytes and leaves the state unchanged. -/
theorem C3_get_result_cases (si : ServerInfo) (now : Nat) (task_id : String) :
    (si.status ≠ ServerStatus.Working →
      get_task_result si now task_id =
        (Except.error (Status.cancelled noTaskRunningMsg), si)) ∧
    (si.status = ServerStatus.Working → task_id ≠ si.task_info.task_id →
      get_task_result si now task_id =
        (Except.error
          (Status.invalid_argument
            (invalidParametersMsg
              ("current working task id is:" ++ si.task_info.task_id ++ ",but:" ++ task_id))),
         si)) ∧
    (si.status = ServerStatus.Working → task_id = si.task_info.task_id →
      si.task_info.task_status = TaskStatus.Done →
      get_task_result si now task_id =
        (Except.ok si.task_info.result,
         { si with
            status := ServerStatus.Free
            last_update_time := now
            task_info := { si.task_info with task_status := TaskStatus.Returned } })) ∧
    (si.status = ServerStatus.Working → task_id = si.task_info.task_id →
      si.task_info.task_status = TaskStatus.Failed →
      get_task_result si now task_id =
        (Except.error (Status.aborted (taskFailedMsg si.error)),
         { si with
            status := ServerStatus.Free
            last_update_time := now })) ∧
    (si.status = ServerStatus.Working → task_id = si.task_info.task_id →
      si.task_info.task_status ≠ TaskStatus.Done →
      si.task_info.task_status ≠ TaskStatus.Failed →
      get_task_result si now task_id = (Except.ok [], si)) := by
  refine ⟨?_, ?_, ?_, ?_, ?_⟩
  · intro h
    simp [get_task_result, h]
  · intro h hid
    simp [get_task_result, h, hid]
  · intro h hid hd
    exact get_result_done_eq si now task_id h hid hd
  · intro h hid hf
    exact get_result_failed_eq si now task_id h hid hf
  · intro h hid hd hf
    simp [get_task_result, h, hid, hd, hf]

/-- C3 witness: on the sample Done state, picking up task `"A"` at time 7
returns `[1]` and frees the slot. -/
theorem C3_get_result_cases_witness :
    get_task_result siDoneA 7 "A" =
      (Except.ok siDoneA.task_info.result,
       { siDoneA with
          status := ServerStatus.Free
          last_update_time := 7
          task_info := { siDoneA.task_info with task_status := TaskStatus.Returned } }) :=
  (C3_get_result_cases siDoneA 7 "A").2.2.1 rfl rfl rfl

/-- Helper: the accepting branch of `do_task` moves the slot to Working with
the task info from the request, whatever the channel send outcome. -/
lemma do_task_state_accept (si : ServerInfo) (now : Nat) (tx : Bool)
    (p : SnarkTaskRequestParams)
    (hc : si.status = ServerStatus.Locked ∧ si.task_info.task_id = p.task_id) :
    (do_task si now tx p).2 =
      { si with
          task_info := set_task_info p
          status := ServerStatus.Working
          last_update_time := now } := by
  cases tx <;> simp [do_task, hc]

/-- Helper: every rejecting branch of `do_task` leaves the state unchanged. -/
lemma do_task_state_reject (si : ServerInfo) (now : Nat) (tx : Bool)
    (p : SnarkTaskRequestParams)
    (hc : ¬ (si.status = ServerStatus.Locked ∧ si.task_info.task_id = p.task_id)) :
    (do_task si now tx p).2 = si := by
  by_cases hs : si.status = ServerStatus.Locked
  · have hid : ¬ si.task_info.task_id = p.task_id := fun h => hc ⟨hs, h⟩
    simp [do_task, hs, hid]
  · cases hst : si.status
    · simp [do_task, hst]
    · exact absurd hst hs
    · simp [do_task, hst]
    · simp [do_task, hst]

/-- C1 counterexample: from the sample Working/Done state, picking up the
result sets `status = Free` yet leaves `task_info` populated (task_id `"A"`,
the blobs, result `[1]`, task_status `Returned`), so the invariant
"`status = Free` implies `task_info` is zeroed" is violated right after
`get_result` returns. -/
theorem C1_free_zeroed_counterexample :
    (get_task_result siDoneA 7 "A").2.status = ServerStatus.Free ∧
    (get_task_result siDoneA 7 "A").2.task_info ≠ TaskInfo.default := by
  decide

/-- C1 amended: the invariant "`status = Free` implies `task_info` is zeroed"
is preserved by `lock_server_if_free`, `do_task` and `unlock`, but not by
`get_task_result`: its Done branch sets status to Free while keeping the
task_id and blobs, the result bytes, and task_status `Returned`, and its
Failed branch sets status to Free while keeping `task_info` entirely
unchanged. -/
theorem C1_free_implies_zeroed (si : ServerInfo) (now : Nat) (tid : String)
    (txOpen : Bool) (p : SnarkTaskRequestParams) :
    (inv2 si → inv2 (lock_server_if_free si now tid).2) ∧
    (inv2 si → inv2 (do_task si now txOpen p).2) ∧
    (inv2 si → inv2 (unlock si now tid).2) ∧
    (si.status = ServerStatus.Working → tid = si.task_info.task_id →
      si.task_info.task_status = TaskStatus.Done →
      (get_task_result si now tid).2.status = ServerStatus.Free ∧
      (get_task_result si now tid).2.task_info =
        { si.task_info with task_status := TaskStatus.Returned }) ∧
    (si.status = ServerStatus.Working → tid = si.task_info.task_id →
      si.task_info.task_status = TaskStatus.Failed →
      (get_task_result si now tid).2.status = ServerStatus.Free ∧
      (get_task_result si now tid).2.task_info = si.task_info) := by
  refine ⟨?_, ?_, ?_, ?_, ?_⟩
  · intro hinv
    unfold inv2 at hinv ⊢
    cases hs : si.status
    · simp [lock_server_if_free, hs]
    · simp only [lock_server_if_free, hs]
      split_ifs with ht
      · simp
      · intro hc; simp_all
    · simp only [lock_server_if_free, hs]
      split_ifs with ht
      · simp
      · intro hc; simp_all
    · simp only [lock_server_if_free, hs]
      intro hc; simp_all
  · intro hinv
    unfold inv2 at hinv ⊢
    by_cases hc : si.status = ServerStatus.Locked ∧ si.task_info.task_id = p.task_id
    · rw [do_task_state_accept si now txOpen p hc]
      simp
    · rw [do_task_state_reject si now txOpen p hc]
      exact hinv
  · intro hinv
    unfold inv2 at hinv ⊢
    unfold unlock
    split_ifs with h1 h2 h3
    · exact fun _ => hinv h1
    · intro _; rfl
    · exact fun hf => absurd hf h1
    · exact fun hf => absurd hf h1
  · intro hs hid hd
    rw [get_result_done_eq si now tid hs hid hd]
    exact ⟨rfl, rfl⟩
  · intro hs hid hf
    rw [get_result_failed_eq si now tid hs hid hf]
    exact ⟨rfl, rfl⟩

/-- C1 witness: unlocking the sample Locked state keeps the invariant; the
Done pickup on the sample state lands in Free with `task_info` retained. -/
theorem C1_free_implies_zeroed_witness :
    inv2 (unlock siLockedA 3 "A").2 ∧
    (get_task_result siDoneA 7 "A").2.status = ServerStatus.Free :=
  ⟨(C1_free_implies_zeroed siLockedA 3 "A" true paramsA).2.2.1 (by decide),
   ((C1_free_implies_zeroed siDoneA 7 "A" true paramsA).2.2.2.1 rfl rfl rfl).1⟩

/-- C4 counterexample: on the sample Working/Failed state (stored error
`"gpu oom"`), the matching pickup returns status code ABORTED, not the
CANCELLED the claim names. -/
theorem C4_failed_pickup_counterexample :
    (get_task_result siFailedX 7 "X").1 =
      Except.error (Status.aborted (taskFailedMsg "gpu oom")) ∧
    taskFailedMsg "gpu oom" = "task failed with error: gpu oom" ∧
    StatusCode.Aborted ≠ StatusCode.Cancelled :=
  ⟨rfl, by decide, by decide⟩

/-- C4 amended: when status is Working, the supplied task_id matches, and the
task has Failed, `get_task_result` sets status to Free, stamps
`last_update_time`, and returns an error with RPC status code ABORTED (not
CANCELLED) whose message contains the stored error string. -/
theorem C4_failed_pickup_aborted (si : ServerInfo) (now : Nat)
    (hs : si.status = ServerStatus.Working)
    (hf : si.task_info.task_status = TaskStatus.Failed) :
    (get_task_result si now si.task_info.task_id).1 =
      Except.error (Status.aborted (taskFailedMsg si.error)) ∧
    (Status.aborted (taskFailedMsg si.error)).code = StatusCode.Aborted ∧
    strContains (taskFailedMsg si.error) si.error = true ∧
    (get_task_result si now si.task_info.task_id).2.status = ServerStatus.Free ∧
    (get_task_result si now si.task_info.task_id).2.last_update_time = now := by
  have h := get_result_failed_eq si now si.task_info.task_id hs rfl hf
  refine ⟨by rw [h], rfl, ?_, by rw [h], by rw [h]⟩
  exact strContains_suffix "task failed with error: " si.error

/-- C4 witness: the amended behaviour evaluated on the sample Failed state. -/
theorem C4_failed_pickup_aborted_witness :
    (get_task_result siFailedX 7 "X").1 =
      Except.error (Status.aborted (taskFailedMsg "gpu oom")) ∧
    (Status.aborted (taskFailedMsg "gpu oom")).code = StatusCode.Aborted ∧
    strContains (taskFailedMsg "gpu oom") "gpu oom" = true ∧
    (get_task_result siFailedX 7 "X").2.status = ServerStatus.Free ∧
    (get_task_result siFailedX 7 "X").2.last_update_time = 7 :=
  C4_failed_pickup_aborted siFailedX 7 rfl rfl

/-- Helper: a rejected `do_task` never reports success. -/
lemma do_task_reject_ne_ok (si : ServerInfo) (now : Nat) (tx : Bool)
    (p : SnarkTaskRequestParams)
    (hc : ¬ (si.status = ServerStatus.Locked ∧ si.task_info.task_id = p.task_id)) :
    (do_task si now tx p).1 ≠ Except.ok () := by
  by_cases hs : si.status = ServerStatus.Locked
  · have hid : ¬ si.task_info.task_id = p.task_id := fun h => hc ⟨hs, h⟩
    simp [do_task, hs, hid]
  · cases hst : si.status
    · simp [do_task, hst]
    · exact absurd hst hs
    · simp [do_task, hst]
    · simp [do_task, hst]

/-- C5 counterexample: submitting on a Free server is rejected with the
message "server should be locked until task is executed", which does not
contain the claim's quoted fragment "should be locked first". -/
theorem C5_submit_counterexample :
    (do_task siFree 5 true paramsA).1 =
      Except.error (Status.cancelled "server should be locked until task is executed") ∧
    strContains "server should be locked until task is executed"
      "should be locked first" = false :=
  ⟨rfl, by decide⟩

/-- C5 amended: `do_task` succeeds iff the status is Locked, the request's
task_id matches the held one, and the executor channel accepts the send; on
success it installs `set_task_info params` (task_status Ready, empty result),
moves the slot to Working and stamps `last_update_time := now`. Each of the
four rejections returns a cancelled error and leaves the state unchanged,
with the code's actual messages: Locked/mismatch "server was locked by
another task, can not be used now"; Free "server should be locked until task
is executed"; Working "server is working on another task, can not be used
now"; Unknown "server is Unknown, can not be used now". -/
theorem C5_submit_accepts_iff (si : ServerInfo) (now : Nat) (tx : Bool)
    (p : SnarkTaskRequestParams) :
    ((do_task si now tx p).1 = Except.ok () ↔
      si.status = ServerStatus.Locked ∧ si.task_info.task_id = p.task_id ∧ tx = true) ∧
    (si.status = ServerStatus.Locked → si.task_info.task_id = p.task_id → tx = true →
      do_task si now tx p =
        (Except.ok (),
         { si with
            task_info := set_task_info p
            status := ServerStatus.Working
            last_update_time := now })) ∧
    (si.status = ServerStatus.Locked → si.task_info.task_id ≠ p.task_id →
      do_task si now tx p =
        (Except.error
          (Status.cancelled "server was locked by another task, can not be used now"), si)) ∧
    (si.status = ServerStatus.Free →
      do_task si now tx p =
        (Except.error
          (Status.cancelled "server should be locked until task is executed"), si)) ∧
    (si.status = ServerStatus.Working →
      do_task si now tx p =
        (Except.error
          (Status.cancelled "server is working on another task, can not be used now"), si)) ∧
    (si.status = ServerStatus.Unknown →
      do_task si now tx p =
        (Except.error (Status.cancelled "server is Unknown, can not be used now"), si)) ∧
    strContains "server was locked by another task, can not be used now"
      "server was locked by another task" = true ∧
    strContains "server is working on another task, can not be used now"
      "working on another task" = true := by
  refine ⟨?_, ?_, ?_, ?_, ?_, ?_, by decide, by decide⟩
  · constructor
    · intro h
      by_cases hc : si.status = ServerStatus.Locked ∧ si.task_info.task_id = p.task_id
      · refine ⟨hc.1, hc.2, ?_⟩
        cases htx : tx
        · rw [htx] at h
          simp [do_task, hc] at h
        · rfl
      · exact absurd h (do_task_reject_ne_ok si now tx p hc)
    · rintro ⟨h1, h2, h3⟩
      simp [do_task, h1, h2, h3]
  · intro h1 h2 h3
    simp [do_task, h1, h2, h3]
  · intro h1 h2
    simp [do_task, h1, h2]
  · intro h
    simp [do_task, h]
  · intro h
    simp [do_task, h]
  · intro h
    simp [do_task, h]

/-- C5 witness: a matching submit on the sample Locked state succeeds; a
submit on the fresh Free state is rejected with the code's message. -/
theorem C5_submit_accepts_iff_witness :
    do_task siLockedA 5 true paramsA =
      (Except.ok (),
       { siLockedA with
          task_info := set_task_info paramsA
          status := ServerStatus.Working
          last_update_time := 5 }) ∧
    do_task siFree 5 true paramsA =
      (Except.error
        (Status.cancelled "server should be locked until task is executed"), siFree) :=
  ⟨(C5_submit_accepts_iff siLockedA 5 true paramsA).2.1 rfl rfl rfl,
   (C5_submit_accepts_iff siFree 5 true paramsA).2.2.2.1 rfl⟩

/-- C6: if the Locked-and-matching-id check passes but the executor channel
is closed, `do_task` returns a cancellation error, yet the state has already
transitioned: status Working, `task_info` populated from the params,
`last_update_time` stamped — the error path is not atomic. -/
theorem C6_channel_closed_not_atomic (si : ServerInfo) (now : Nat)
    (p : SnarkTaskRequestParams)
    (hs : si.status = ServerStatus.Locked)
    (hid : si.task_info.task_id = p.task_id) :
    do_task si now false p =
      (Except.error (Status.cancelled "ok"),
       { si with
          task_info := set_task_info p
          status := ServerStatus.Working
          last_update_time := now }) := by
  simp [do_task, hs, hid]

/-- C6 witness: the closed-channel submit on the sample Locked state. -/
theorem C6_channel_closed_not_atomic_witness :
    do_task siLockedA 5 false paramsA =
      (Except.error (Status.cancelled "ok"),
       { siLockedA with
          task_info := set_task_info paramsA
          status := ServerStatus.Working
          last_update_time := 5 }) :=
  C6_channel_closed_not_atomic siLockedA 5 paramsA rfl rfl

/-- C7 counterexample: unlocking a Free server fails with the message
"server is already Free"; that message does not contain the claim's quoted
lowercase fragment "already free" (it contains "already Free"). -/
theorem C7_unlock_counterexample :
    (unlock siFree 5 "A").1 = Except.error (Status.cancelled "server is already Free") ∧
    strContains "server is already Free" "already free" = false ∧
    strContains "server is already Free" "already Free" = true :=
  ⟨rfl, by decide, by decide⟩

/-- C7 amended: `unlock` succeeds iff status is Locked and the task_id
matches, in which case it sets status to Free (`ServerStatus.default`),
zeroes `task_info`, and stamps `last_update_time`; on a Free server it fails
with the message "server is already Free" (capital F); on Locked with a
mismatched id it fails with a message containing "locked by another task",
leaving the state unchanged; on Working or Unknown it fails with a fixed
message, leaving the state unchanged. -/
theorem C7_unlock_locked_only (si : ServerInfo) (now : Nat) (task_id : String) :
    ((unlock si now task_id).1 = Except.ok () ↔
      si.status = ServerStatus.Locked ∧ task_id = si.task_info.task_id) ∧
    (si.status = ServerStatus.Locked → task_id = si.task_info.task_id →
      unlock si now task_id =
        (Except.ok (),
         { si with
            status := ServerStatus.default
            task_info := TaskInfo.default
            last_update_time := now })) ∧
    ServerStatus.default = ServerStatus.Free ∧
    (si.status = ServerStatus.Free →
      unlock si now task_id =
        (Except.error (Status.cancelled "server is already Free"), si)) ∧
    (si.status = ServerStatus.Locked → task_id ≠ si.task_info.task_id →
      unlock si now task_id =
        (Except.error
          (Status.invalid_argument
            ("can not be unlocked by another task ,which is locked by task_id:" ++
              si.task_info.task_id ++ ",but " ++ task_id)), si) ∧
      strContains
        ("can not be unlocked by another task ,which is locked by task_id:" ++
          si.task_info.task_id ++ ",but " ++ task_id)
        "locked by another task" = true) ∧
    (si.status = ServerStatus.Working →
      unlock si now task_id =
        (Except.error
          (Status.cancelled "this operation just used to unlock a server in status Locked"),
         si)) ∧
    (si.status = ServerStatus.Unknown →
      unlock si now task_id =
        (Except.error
          (Status.cancelled "this operation just used to unlock a server in status Locked"),
         si)) := by
  refine ⟨?_, ?_, rfl, ?_, ?_, ?_, ?_⟩
  · constructor
    · intro h
      by_cases h1 : si.status = ServerStatus.Free
      · simp [unlock, h1] at h
      · by_cases h2 : si.status = ServerStatus.Locked
        · by_cases h3 : task_id = si.task_info.task_id
          · exact ⟨h2, h3⟩
          · simp [unlock, h1, h2, h3] at h
        · simp [unlock, h1, h2] at h
    · rintro ⟨h2, h3⟩
      have h1 : ¬ si.status = ServerStatus.Free := by
        rw [h2]; intro hc; cases hc
      simp [unlock, h1, h2, h3]
  · intro h2 h3
    have h1 : ¬ si.status = ServerStatus.Free := by
      rw [h2]; intro hc; cases hc
    simp [unlock, h1, h2, h3]
  · intro h1
    simp [unlock, h1]
  · intro h2 h3
    have h1 : ¬ si.status = ServerStatus.Free := by
      rw [h2]; intro hc; cases hc
    refine ⟨by simp [unlock, h1, h2, h3], ?_⟩
    have hfix :
        strContains "can not be unlocked by another task ,which is locked by task_id:"
          "locked by another task" = true := by decide
    have h4 := strContains_append_right
      "can not be unlocked by another task ,which is locked by task_id:"
      si.task_info.task_id "locked by another task" hfix
    have h5 := strContains_append_right _ ",but " "locked by another task" h4
    have h6 := strContains_append_right _ task_id "locked by another task" h5
    exact h6
  · intro hw
    have h1 : ¬ si.status = ServerStatus.Free := by
      rw [hw]; intro hc; cases hc
    have h2 : ¬ si.status = ServerStatus.Locked := by
      rw [hw]; intro hc; cases hc
    simp [unlock, h1, h2]
  · intro hu
    have h1 : ¬ si.status = ServerStatus.Free := by
      rw [hu]; intro hc; cases hc
    have h2 : ¬ si.status = ServerStatus.Locked := by
      rw [hu]; intro hc; cases hc
    simp [unlock, h1, h2]

/-- C7 witness: unlocking the sample Locked state with the matching id frees
and zeroes the slot; unlocking the fresh Free state fails with the code's
message. -/
theorem C7_unlock_locked_only_witness :
    unlock siLockedA 3 "A" =
      (Except.ok (),
       { siLockedA with
          status := ServerStatus.default
          task_info := TaskInfo.default
          last_update_time := 3 }) ∧
    unlock siFree 3 "A" =
      (Except.error (Status.cancelled "server is already Free"), siFree) :=
  ⟨(C7_unlock_locked_only siLockedA 3 "A").2.1 rfl rfl,
   (C7_unlock_locked_only siFree 3 "A").2.2.2.1 rfl⟩

/-- Helper: while the slot stays Locked and no caller arrives after the lock
timeout, every `lock_server_if_free` call observes Locked and mutates
nothing. -/
lemma runLocks_all_locked (si1 : ServerInfo) (rest : List (String × Nat))
    (hs : si1.status = ServerStatus.Locked)
    (ht : ∀ c ∈ rest,
      ¬ durationSince c.2 si1.last_update_time > si1.server_lock_time_out) :
    (runLocks si1 rest).1 = rest.map (fun _ => Except.ok ServerStatus.Locked) ∧
    (runLocks si1 rest).2 = si1 := by
  induction rest with
  | nil => exact ⟨rfl, rfl⟩
  | cons c cs ih =>
      have hc := ht c (List.mem_cons_self c cs)
      have hstep : lock_server_if_free si1 c.2 c.1 = (Except.ok ServerStatus.Locked, si1) := by
        simp [lock_server_if_free, hs, hc]
      have ihh := ih (fun d hd => ht d (List.mem_cons_of_mem c hd))
      constructor
      · simp only [runLocks, hstep, List.map_cons]
        rw [ihh.1]
      · simp only [runLocks, hstep]
        exact ihh.2

/-- C8: single-slot mutual exclusion. The mutex totally orders concurrent
`lock_server_if_free` callers, so an interleaving is a sequence of calls;
starting from Free, with distinct task_ids and every later call arriving
within `server_lock_time_out` of the first, the first caller observes Free
(acquires the slot) and every other caller observes Locked. -/
theorem C8_mutual_exclusion (si : ServerInfo) (id0 : String) (t0 : Nat)
    (rest : List (String × Nat))
    (hfree : si.status = ServerStatus.Free)
    (hdistinct : (id0 :: rest.map Prod.fst).Pairwise (fun a b => a ≠ b))
    (htimes : ∀ c ∈ rest, c.2 ≤ t0 + si.server_lock_time_out) :
    (runLocks si ((id0, t0) :: rest)).1 =
      Except.ok ServerStatus.Free :: rest.map (fun _ => Except.ok ServerStatus.Locked) := by
  have hstep : lock_server_if_free si t0 id0 =
      (Except.ok ServerStatus.Free,
       { si with
          task_info := { TaskInfo.default with task_id := id0 }
          status := ServerStatus.Locked
          last_update_time := t0 }) := by
    simp [lock_server_if_free, hfree]
  have ht : ∀ c ∈ rest,
      ¬ durationSince c.2
          ({ si with
              task_info := { TaskInfo.default with task_id := id0 }
              status := ServerStatus.Locked
              last_update_time := t0 } : ServerInfo).last_update_time >
        ({ si with
            task_info := { TaskInfo.default with task_id := id0 }
            status := ServerStatus.Locked
            last_update_time := t0 } : ServerInfo).server_lock_time_out := by
    intro c hcmem
    have := htimes c hcmem
    simp only [durationSince]
    omega
  have hrest := runLocks_all_locked _ rest rfl ht
  simp only [runLocks, hstep]
  rw [hrest.1]

/-- C8 witness: three callers `"A"`, `"B"`, `"C"` at times 1, 2, 3 on the
fresh Free server: `"A"` acquires, the others observe Locked. -/
theorem C8_mutual_exclusion_witness :
    (runLocks siFree [("A", 1), ("B", 2), ("C", 3)]).1 =
      [Except.ok ServerStatus.Free, Except.ok ServerStatus.Locked,
        Except.ok ServerStatus.Locked] :=
  C8_mutual_exclusion siFree "A" 1 [("B", 2), ("C", 3)] rfl (by decide) (by decide)

/-- Sample state: slot Working on task `"B"`, task Done with an EMPTY stored
result. -/
def siDoneEmptyB : ServerInfo :=
  { task_info :=
      { task_id := "B"
        vanilla_proof := [9]
        pub_in := []
        post_config := []
        replicas_len := 1
        result := []
        task_status := TaskStatus.Done }
    status := ServerStatus.Working
    last_update_time := 0
    server_lock_time_out := 10
    server_task_get_back_time_out := 60
    server_exit_time_out_after_task_done := 300
    error := "" }

/-- C9: the RPC facade `get_snark_task_result` shapes its reply solely from
the length of the byte vector `get_task_result` returns — `msg = "ok"` iff
non-empty, otherwise `msg = "Working"`. Hence for a Working slot whose task
is Done with an empty stored result, a matching poll replies
`msg = "Working"` with empty bytes even though the slot was just freed and
the task marked Returned, and any later poll fails with the
no-task-running error: the empty Done result is never observably
delivered. -/
theorem C9_empty_done_result_lost (si : ServerInfo) (now later : Nat)
    (task_id : String) :
    (∀ v si', get_task_result si now task_id = (Except.ok v, si') →
      get_snark_task_result si now task_id =
        (Except.ok { msg := if v.length > 0 then "ok" else "Working", result := v }, si')) ∧
    (si.status = ServerStatus.Working → task_id = si.task_info.task_id →
      si.task_info.task_status = TaskStatus.Done → si.task_info.result = [] →
      get_snark_task_result si now task_id =
        (Except.ok { msg := "Working", result := [] },
         { si with
            status := ServerStatus.Free
            last_update_time := now
            task_info := { si.task_info with task_status := TaskStatus.Returned } }) ∧
      (get_task_result
          { si with
              status := ServerStatus.Free
              last_update_time := now
              task_info := { si.task_info with task_status := TaskStatus.Returned } }
          later task_id).1 =
        Except.error (Status.cancelled noTaskRunningMsg)) := by
  constructor
  · intro v si' h
    by_cases hv : v.length > 0
    · simp [get_snark_task_result, h, hv]
    · simp [get_snark_task_result, h, hv, TaskStatus.toString]
  · intro hs hid hd hres
    have h := get_result_done_eq si now task_id hs hid hd
    rw [hres] at h
    constructor
    · simp [get_snark_task_result, h, TaskStatus.toString]
    · simp [get_task_result]

/-- C9 witness: polling the sample empty-result Done state on task `"B"`. -/
theorem C9_empty_done_result_lost_witness :
    get_snark_task_result siDoneEmptyB 7 "B" =
      (Except.ok { msg := "Working", result := [] },
       { siDoneEmptyB with
          status := ServerStatus.Free
          last_update_time := 7
          task_info := { siDoneEmptyB.task_info with task_status := TaskStatus.Returned } }) ∧
    (get_task_result
        { siDoneEmptyB with
            status := ServerStatus.Free
            last_update_time := 7
            task_info := { siDoneEmptyB.task_info with task_status := TaskStatus.Returned } }
        9 "B").1 =
      Except.error (Status.cancelled noTaskRunningMsg) :=
  (C9_empty_done_result_lost siDoneEmptyB 7 9 "B").2 rfl rfl rfl rfl

/-- C10: no operation validates that the task_id is non-empty: locking a
Free server with the empty string succeeds (observes Free) and records the
empty task_id, and a subsequent submit whose `params.task_id` is also empty
is accepted, moving the slot to Working with an empty held task_id. -/
theorem C10_empty_task_id_accepted (si : ServerInfo) (t1 t2 : Nat)
    (p : SnarkTaskRequestParams)
    (hfree : si.status = ServerStatus.Free) (hp : p.task_id = "") :
    (lock_server_if_free si t1 "").1 = Except.ok ServerStatus.Free ∧
    (lock_server_if_free si t1 "").2.task_info.task_id = "" ∧
    (do_task (lock_server_if_free si t1 "").2 t2 true p).1 = Except.ok () ∧
    (do_task (lock_server_if_free si t1 "").2 t2 true p).2.status = ServerStatus.Working ∧
    (do_task (lock_server_if_free si t1 "").2 t2 true p).2.task_info.task_id = "" := by
  have h1 : lock_server_if_free si t1 "" =
      (Except.ok ServerStatus.Free,
       { si with
          task_info := { TaskInfo.default with task_id := "" }
          status := ServerStatus.Locked
          last_update_time := t1 }) := by
    simp [lock_server_if_free, hfree]
  rw [h1]
  refine ⟨rfl, rfl, ?_, ?_, ?_⟩
  · simp [do_task, hp]
  · simp [do_task, hp]
  · simp [do_task, set_task_info, hp]

/-- C10 witness: the empty-id lock-then-submit sequence on the fresh Free
server, with an empty-id request. -/
theorem C10_empty_task_id_accepted_witness :
    (lock_server_if_free siFree 1 "").1 = Except.ok ServerStatus.Free ∧
    (lock_server_if_free siFree 1 "").2.task_info.task_id = "" ∧
    (do_task (lock_server_if_free siFree 1 "").2 2 true
        { task_id := "", vanilla_proof := [1], pub_in := [], post_config := [],
          replicas_len := 0 }).1 = Except.ok () ∧
    (do_task (lock_server_if_free siFree 1 "").2 2 true
        { task_id := "", vanilla_proof := [1], pub_in := [], post_config := [],
          replicas_len := 0 }).2.status = ServerStatus.Working ∧
    (do_task (lock_server_if_free siFree 1 "").2 2 true
        { task_id := "", vanilla_proof := [1], pub_in := [], post_config := [],
          replicas_len := 0 }).2.task_info.task_id = "" :=
  C10_empty_task_id_accepted siFree 1 2
    { task_id := "", vanilla_proof := [1], pub_in := [], post_config := [],
      replicas_len := 0 } rfl rfl

end WPS
